import Mathlib

/-!
Verification of the shared HTTP request/response pipeline of the workos-rust
client library: the header/body sanitizer and truncation helpers
(src/core/http.rs), the transport-error chain collector and hint derivation
(src/core/http.rs), the error taxonomy (src/core/error.rs), the response
classifier (src/core/response.rs), and the dispatcher (src/workos.rs).

The embedding is shallow: header values are byte lists, responses are records,
structured log records emitted through the tracing hooks are modelled as an
explicit list of events returned alongside each result (the tracing-enabled
semantics), and the asynchronous transport outcome is passed in as a value.
-/

namespace WorkOsRust

/-- Maximum number of body bytes kept for diagnostics, from
`MAX_BODY_LOG_BYTES` in src/core/http.rs. -/
def MAX_BODY_LOG_BYTES : Nat := 8 * 1024

/-- A header collection: an ordered list of (name, value-bytes) pairs,
modelling iteration over `reqwest::header::HeaderMap`. Header values are raw
bytes (naturals below 256). -/
abbrev HeaderMap := List (String × List Nat)

/-- ASCII lowercasing of one character, as used by `eq_ignore_ascii_case`. -/
def asciiLowerChar (c : Char) : Char :=
  if 65 ≤ c.toNat ∧ c.toNat ≤ 90 then Char.ofNat (c.toNat + 32) else c

/-- Case-insensitive ASCII string comparison, modelling
`str::eq_ignore_ascii_case`. -/
def eqIgnoreAsciiCase (a b : String) : Bool :=
  decide (a.data.map asciiLowerChar = b.data.map asciiLowerChar)

/-- Predicate satisfied by the bytes `http::HeaderValue::to_str` accepts:
visible ASCII (32..126) or horizontal tab. -/
def visibleAscii (b : Nat) : Bool :=
  decide ((32 ≤ b ∧ b < 127) ∨ b = 9)

/-- Models `http::HeaderValue::to_str`: succeeds exactly when every byte is
visible ASCII (or tab), returning the corresponding string. -/
def headerValueToStr (v : List Nat) : Option String :=
  if v.all visibleAscii then some (String.mk (v.map Char.ofNat)) else none

/-- UTF-8 bytes of a string, as natural numbers; used to rebuild a header
value from sanitizer output (ASCII output bytes coincide with code points). -/
def strBytes (s : String) : List Nat :=
  s.data.map Char.toNat

/-- Models `sanitize_headers` from src/core/http.rs: map each (name, value)
pair to a string pair, redacting any `authorization` value (case-insensitive
name comparison) and replacing undisplayable values with a placeholder. -/
def sanitize_headers (headers : HeaderMap) : List (String × String) :=
  headers.map (fun nv =>
    let value_string :=
      if eqIgnoreAsciiCase nv.1 "authorization" then "<redacted>"
      else
        match headerValueToStr nv.2 with
        | some val => val
        | none => "<non-utf8-value>"
    (nv.1, value_string))

/-- UTF-8 byte length of a string, modelling Rust's `str::len`. -/
def utf8Len (s : String) : Nat :=
  (s.data.map Char.utf8Size).sum

/-- The ellipsis character appended by `truncate_for_log` on truncation. -/
def ellipsisChar : Char := '…'

/-- The character-walking loop inside `truncate_for_log`: keep consuming
characters while the running byte count stays within the limit, stopping at
the first character that would overflow it. -/
def truncLoop (limit : Nat) : List Char → Nat → List Char
  | [], _ => []
  | c :: rest, byteCount =>
    if byteCount + c.utf8Size > limit then []
    else c :: truncLoop limit rest (byteCount + c.utf8Size)

/-- Models `truncate_for_log` from src/core/http.rs: texts within the byte
limit are returned unchanged; longer texts are cut at a character boundary
within the limit and an ellipsis is appended. -/
def truncate_for_log (text : String) (limit : Nat) : String :=
  if utf8Len text ≤ limit then text
  else String.mk (truncLoop limit text.data 0 ++ [ellipsisChar])

/-- Model of `reqwest::Error`: its `Display` output, the optional URL it
carries, its timeout category flag, and the `Display` outputs of its
`source` chain in order. -/
structure ReqwestError where
  msg : String
  url : Option String
  is_timeout : Bool
  sources : List String
deriving DecidableEq

/-- Models `collect_error_chain` from src/core/http.rs: walk the cause chain,
pushing each message unless it equals the last pushed message. -/
def collect_error_chain (sources : List String) : List String :=
  sources.foldl (fun chain s => if chain.getLast? = some s then chain else chain ++ [s]) []

/-- Substring containment on strings, modelling `str::contains` with a string
pattern. -/
def containsSub (haystack pat : String) : Bool :=
  decide (pat.data <:+: haystack.data)

/-- Models `str::to_lowercase` on the ASCII texts involved in hint matching. -/
def to_lowercase (s : String) : String :=
  String.mk (s.data.map asciiLowerChar)

/-- Hint text for timeouts (src/core/http.rs). -/
def timeoutHint : String := "Connection timed out while contacting WorkOS"

/-- Hint text for DNS failures (src/core/http.rs). -/
def dnsHint : String := "DNS resolution failed for the WorkOS endpoint"

/-- Hint text for refused connections (src/core/http.rs). -/
def refusedHint : String := "Remote host refused the TCP connection"

/-- Hint text for TLS verification failures (src/core/http.rs). -/
def tlsHint : String := "TLS certificate verification failed; ensure the trust store is available"

/-- Hint text for OpenSSL store/provider problems (src/core/http.rs). -/
def osslHint : String := "OpenSSL certificate store loader is unavailable; check OpenSSL providers/config"

/-- The lowercased concatenation the hint matcher scans: the top-level error
message followed by the chain, joined by a pipe separator. -/
def combinedText (err : ReqwestError) (chain : List String) : String :=
  to_lowercase (String.intercalate " | " (err.msg :: chain))

/-- Models `derive_error_hint` from src/core/http.rs: priority-ordered
substring matching over the combined message text, with the timeout hint also
triggered by the error's timeout category flag. -/
def derive_error_hint (err : ReqwestError) (chain : List String) : Option String :=
  let combined := combinedText err chain
  if err.is_timeout || containsSub combined "timed out" then some timeoutHint
  else if containsSub combined "dns error"
      || containsSub combined "failed to lookup address information"
      || containsSub combined "failed to resolve" then some dnsHint
  else if containsSub combined "connection refused" then some refusedHint
  else if containsSub combined "certificate verify failed"
      || containsSub combined "unable to get local issuer certificate" then some tlsHint
  else if containsSub combined "ossl_store_get0_loader_int"
      || containsSub combined "unregistered scheme" then some osslHint
  else none

/-- The hint table in its priority order: trigger substrings paired with the
hint each produces. -/
def hintPatterns : List (List String × String) :=
  [ ([ "timed out" ], timeoutHint),
    ([ "dns error", "failed to lookup address information", "failed to resolve" ], dnsHint),
    ([ "connection refused" ], refusedHint),
    ([ "certificate verify failed", "unable to get local issuer certificate" ], tlsHint),
    ([ "ossl_store_get0_loader_int", "unregistered scheme" ], osslHint) ]

/-- Pure substring matching over a hint table: the first entry (in priority
order) one of whose trigger substrings occurs in the combined text. -/
def matchHint : List (List String × String) → String → Option String
  | [], _ => none
  | (pats, hint) :: rest, combined =>
    if pats.any (fun pat => containsSub combined pat) then some hint
    else matchHint rest combined

/-- Hint derivation exactly as the specification words it: chosen purely by
case-insensitive substring matching over the combined text, in priority
order, with no other trigger. -/
def substring_only_hint (err : ReqwestError) (chain : List String) : Option String :=
  matchHint hintPatterns (combinedText err chain)

/-- Canonical reason phrases for the status codes exercised here, modelling
`http::StatusCode::canonical_reason` (abridged to the codes that occur in
this development; all other codes display the unknown marker, as unknown
codes do in the library). -/
def canonicalReason (code : Nat) : Option String :=
  if code = 200 then some "OK"
  else if code = 201 then some "Created"
  else if code = 400 then some "Bad Request"
  else if code = 401 then some "Unauthorized"
  else if code = 403 then some "Forbidden"
  else if code = 404 then some "Not Found"
  else if code = 422 then some "Unprocessable Entity"
  else if code = 429 then some "Too Many Requests"
  else if code = 500 then some "Internal Server Error"
  else if code = 503 then some "Service Unavailable"
  else none

/-- Models the `Display` of `http::StatusCode`: the numeric code followed by
its canonical reason, or a fixed marker when none is known. -/
def statusDisplay (code : Nat) : String :=
  toString code ++ " " ++ (canonicalReason code).getD "<unknown status code>"

/-- Models `http::StatusCode::is_success`: the 2xx range. -/
def isSuccessStatus (code : Nat) : Bool :=
  decide (200 ≤ code ∧ code < 300)

/-- ASCII digit test. -/
def isAsciiDigit (c : Char) : Bool :=
  decide (48 ≤ c.toNat ∧ c.toNat ≤ 57)

/-- Value of a digit string read most-significant first. -/
def digitsVal (ds : List Char) : Nat :=
  ds.foldl (fun n c => 10 * n + (c.toNat - 48)) 0

/-- Powers of ten, written structurally so concrete parses evaluate inside
the kernel. -/
def pow10 : Nat → Nat
  | 0 => 1
  | k + 1 => 10 * pow10 k

/-- Optional exponent suffix of a float literal, applied to a mantissa kept
as an exact numerator/denominator pair: empty input keeps the mantissa;
otherwise an e/E marker, an optional sign, and digits must consume the rest
of the input. -/
def parseExpPart (num : Int) (den : Nat) (cs : List Char) : Option ℚ :=
  match cs with
  | [] => some (mkRat num den)
  | c :: rest =>
    if c = 'e' ∨ c = 'E' then
      let signSplit : Bool × List Char :=
        match rest with
        | '+' :: r => (false, r)
        | '-' :: r => (true, r)
        | _ => (false, rest)
      let eDigits := signSplit.2.takeWhile isAsciiDigit
      let restE := signSplit.2.dropWhile isAsciiDigit
      if eDigits.isEmpty || !restE.isEmpty then none
      else if signSplit.1 then some (mkRat num (den * pow10 (digitsVal eDigits)))
      else some (mkRat (num * Int.ofNat (pow10 (digitsVal eDigits))) den)
    else none

/-- Models `str::parse::<f32>` on finite decimal literals: optional sign,
digits with an optional fractional part (at least one digit overall), and an
optional exponent. The real parser additionally accepts inf/nan spellings and
rounds to the nearest `f32`; on exactly representable inputs such as 1.5 the
two agree, and both reject exactly the same malformed inputs in this
fragment. The result is the exact rational value. -/
def parse_f32 (s : String) : Option ℚ :=
  let signSplit : Int × List Char :=
    match s.data with
    | '+' :: rest => (1, rest)
    | '-' :: rest => (-1, rest)
    | _ => (1, s.data)
  let sgn := signSplit.1
  let cs1 := signSplit.2
  let intDigits := cs1.takeWhile isAsciiDigit
  let rest1 := cs1.dropWhile isAsciiDigit
  match rest1 with
  | '.' :: rest2 =>
    let fracDigits := rest2.takeWhile isAsciiDigit
    let rest3 := rest2.dropWhile isAsciiDigit
    if intDigits.isEmpty && fracDigits.isEmpty then none
    else
      parseExpPart
        (sgn * (Int.ofNat (digitsVal intDigits * pow10 fracDigits.length
          + digitsVal fracDigits)))
        (pow10 fracDigits.length) rest3
  | _ =>
    if intDigits.isEmpty then none
    else parseExpPart (sgn * Int.ofNat (digitsVal intDigits)) 1 rest1

/-- Models `HeaderMap::get` for a lowercase standard header name: the first
entry whose name matches case-insensitively (header names are
case-insensitive). -/
def headerGet (headers : HeaderMap) (name : String) : Option (List Nat) :=
  (headers.find? (fun nv => eqIgnoreAsciiCase nv.1 name)).map (fun nv => nv.2)

/-- The `Retry-After` extraction in `WorkOs::send` (src/workos.rs): read the
header, require displayable text, and parse it as an `f32`, any failure
yielding `none`. -/
def retryAfterOf (headers : HeaderMap) : Option ℚ :=
  (headerGet headers "retry-after").bind (fun v =>
    (headerValueToStr v).bind (fun s => parse_f32 s))

/-- Models `RequestError` from src/core/error.rs. -/
structure RequestError where
  message : String
  source : Option ReqwestError
deriving DecidableEq

/-- Models `RequestError::new`. -/
def RequestError.new (message : String) : RequestError :=
  { message := message, source := none }

/-- Models `RequestError::with_source`. -/
def RequestError.with_source (message : String) (src : ReqwestError) : RequestError :=
  { message := message, source := some src }

/-- Models `impl From<ReqwestError> for RequestError` (src/core/error.rs):
the message mentions the URL when the error carries one, and the cause is
kept as the source. -/
def RequestError.from_reqwest (err : ReqwestError) : RequestError :=
  let message :=
    match err.url with
    | some u => "request to " ++ u ++ " failed: " ++ err.msg
    | none => "request failed: " ++ err.msg
  RequestError.with_source message err

/-- Models `WorkOsError` from src/core/error.rs. -/
inductive WorkOsError (E : Type) where
  | Operation (err : E)
  | Unauthorized
  | RateLimited (retry_after : Option ℚ)
  | UrlParseError
  | IpAddrParseError
  | RequestError (err : RequestError)
deriving DecidableEq

/-- Models `ResponseLogContext` from src/core/http.rs, the diagnostic context
stored in the response extensions: method, URL, sanitized response headers,
and elapsed duration (in nanoseconds; zero is `Duration::default()`). -/
structure ResponseLogContext where
  method : String
  url : String
  response_headers : List (String × String)
  duration : Nat
deriving DecidableEq

deriving instance DecidableEq for Except

/-- Model of `reqwest::Response` as the classifier sees it: status code, its
own URL, raw headers, the optional stored diagnostic context, and the result
of `text()` (either the body text or the read error). -/
structure Response where
  status : Nat
  url : String
  headers : HeaderMap
  context : Option ResponseLogContext
  body : Except ReqwestError String
deriving DecidableEq

/-- Structured log records emitted through the tracing hooks of
src/core/http.rs, modelled as values. -/
inductive LogEvent where
  | requestFailure (method url : String) (duration : Nat) (errDisplay : String)
      (is_timeout : Bool) (chain : List String) (hint : Option String)
  | responseSuccess (method url : String) (status : Nat)
      (headers : List (String × String)) (duration : Nat)
  | responseStatus (method url : String) (status : Nat)
      (headers : List (String × String)) (duration : Nat)
  | unauthorized (method url : String) (status : Nat)
      (headers : List (String × String)) (duration : Nat)
  | errorWithBody (method url : String) (status : Nat)
      (headers : List (String × String)) (body : String) (duration : Nat)
  | errorBodyFailed (method url : String) (status : Nat)
      (headers : List (String × String)) (errDisplay : String) (duration : Nat)
deriving DecidableEq

/-- Models `format_error_message` from src/core/response.rs. -/
def format_error_message (method url : String) (status : Nat) (body : String) : String :=
  if body.isEmpty then
    method ++ " " ++ url ++ " returned " ++ statusDisplay status ++ " with empty body"
  else
    method ++ " " ++ url ++ " returned " ++ statusDisplay status ++ " with body: " ++ body

/-- Models `build_request_error_from_body` from src/core/response.rs: log an
error-response record and build the request error, taking method, URL,
headers and duration from the context when present and from the fallbacks
("UNKNOWN", the response URL, its sanitized headers, zero duration)
otherwise. -/
def build_request_error_from_body (E : Type) (context : Option ResponseLogContext)
    (fallback_url : String) (fallback_headers : List (String × String))
    (status : Nat) (body : String) : List LogEvent × WorkOsError E :=
  match context with
  | some ctx =>
    ([.errorWithBody ctx.method ctx.url status ctx.response_headers body ctx.duration],
     .RequestError (RequestError.new (format_error_message ctx.method ctx.url status body)))
  | none =>
    ([.errorWithBody "UNKNOWN" fallback_url status fallback_headers body 0],
     .RequestError (RequestError.new (format_error_message "UNKNOWN" fallback_url status body)))

/-- Models `response_to_request_error` from src/core/response.rs: read the
body as text; on success truncate it and delegate to
`build_request_error_from_body`; on failure log the read failure and build a
sourced request error noting that the body could not be read. -/
def response_to_request_error (E : Type) (response : Response) :
    List LogEvent × WorkOsError E :=
  let status := response.status
  let fallback_url := response.url
  let fallback_headers := sanitize_headers response.headers
  match response.body with
  | .ok body =>
    let truncated := truncate_for_log body MAX_BODY_LOG_BYTES
    build_request_error_from_body E response.context fallback_url fallback_headers status truncated
  | .error err =>
    match response.context with
    | some ctx =>
      ([.errorBodyFailed ctx.method ctx.url status ctx.response_headers err.msg ctx.duration],
       .RequestError (RequestError.with_source
         (ctx.method ++ " " ++ ctx.url ++ " returned " ++ statusDisplay status
           ++ " but the response body could not be read: " ++ err.msg) err))
    | none =>
      ([.errorBodyFailed "UNKNOWN" fallback_url status fallback_headers err.msg 0],
       .RequestError (RequestError.with_source
         ("UNKNOWN" ++ " " ++ fallback_url ++ " returned " ++ statusDisplay status
           ++ " but the response body could not be read: " ++ err.msg) err))

/-- Models `ResponseExt::handle_unauthorized_error` (src/core/response.rs):
a 401 status logs an unauthorized record (context or fallbacks) and yields
the unauthorized error; any other status passes the response through. -/
def handle_unauthorized_error (E : Type) (response : Response) :
    List LogEvent × Except (WorkOsError E) Response :=
  if response.status = 401 then
    match response.context with
    | some ctx =>
      ([.unauthorized ctx.method ctx.url response.status ctx.response_headers ctx.duration],
       .error .Unauthorized)
    | none =>
      ([.unauthorized "UNKNOWN" response.url response.status (sanitize_headers response.headers) 0],
       .error .Unauthorized)
  else ([], .ok response)

/-- Models `ResponseExt::handle_generic_error` (src/core/response.rs): 2xx
responses pass through; everything else becomes a request error via
`response_to_request_error`. -/
def handle_generic_error (E : Type) (response : Response) :
    List LogEvent × Except (WorkOsError E) Response :=
  if isSuccessStatus response.status then ([], .ok response)
  else
    let r := response_to_request_error E response
    (r.1, .error r.2)

/-- Models `ResponseExt::handle_unauthorized_or_generic_error`
(src/core/response.rs): the unauthorized check followed, when it passes, by
the generic check. -/
def handle_unauthorized_or_generic_error (E : Type) (response : Response) :
    List LogEvent × Except (WorkOsError E) Response :=
  let first := handle_unauthorized_error E response
  match first.2 with
  | .error e => (first.1, .error e)
  | .ok r =>
    let second := handle_generic_error E r
    (first.1 ++ second.1, second.2)

/-- Outcome of `reqwest::Client::execute` when it returns a response: status,
raw headers, and the eventual result of reading the body as text. -/
structure RawResponse where
  status : Nat
  headers : HeaderMap
  body : Except ReqwestError String
deriving DecidableEq

/-- Models `WorkOs::send` (src/workos.rs) from the point the transport
outcome is known: a transport failure is logged with its chain and hint and
wrapped via the `From` conversion; a received response gets the diagnostic
context stored, a success/non-success status record logged, and a 429 status
short-circuits into the rate-limited error with the parsed `Retry-After`
value. The request-side logging performed before execution carries no
behavioral content and is not modelled. -/
def send (E : Type) (method url : String) (duration : Nat)
    (outcome : Except ReqwestError RawResponse) :
    List LogEvent × Except (WorkOsError E) Response :=
  match outcome with
  | .error err =>
    let error_chain := collect_error_chain err.sources
    let error_hint := derive_error_hint err error_chain
    ([.requestFailure method url duration err.msg err.is_timeout error_chain error_hint],
     .error (.RequestError (RequestError.from_reqwest err)))
  | .ok raw =>
    let response_headers := sanitize_headers raw.headers
    let response : Response :=
      { status := raw.status, url := url, headers := raw.headers,
        context := some { method := method, url := url,
                          response_headers := response_headers, duration := duration },
        body := raw.body }
    let statusEvent :=
      if isSuccessStatus raw.status then
        LogEvent.responseSuccess method url raw.status response_headers duration
      else
        LogEvent.responseStatus method url raw.status response_headers duration
    if raw.status = 429 then
      ([statusEvent], .error (.RateLimited (retryAfterOf raw.headers)))
    else
      ([statusEvent], .ok response)

/-- Rebuilds a header collection from sanitizer output, turning each value
string back into its bytes (sanitizer output is ASCII, where code points and
UTF-8 bytes coincide). -/
def rebuildHeaders (l : List (String × String)) : HeaderMap :=
  l.map (fun nv => (nv.1, strBytes nv.2))

/-- Sample text above the truncation budget: 8193 one-byte characters. -/
def longSample : String :=
  String.mk (List.replicate 8193 'a')

/-- Sample header collection with an authorization entry, a plain entry, and
an undisplayable entry. -/
def hdrsSample : HeaderMap :=
  [("Authorization", strBytes "Bearer sk_test_123"),
   ("Accept", strBytes "application/json"),
   ("X-Bin", [200, 65])]

/-- Sample diagnostic context for classifier witnesses. -/
def ctxSample : ResponseLogContext :=
  { method := "GET", url := "https://api.workos.com/widgets",
    response_headers := [("content-type", "application/json")], duration := 7 }

/-- Sample 401 response carrying a context. -/
def r401Sample : Response :=
  { status := 401, url := "https://api.workos.com/widgets", headers := [],
    context := some ctxSample, body := .ok "denied" }

/-- Sample 200 response. -/
def rOkSample : Response :=
  { status := 200, url := "https://api.workos.com/widgets", headers := [],
    context := some ctxSample, body := .ok "fine" }

/-- Sample 404 response with context and readable body. -/
def r404Sample : Response :=
  { status := 404, url := "https://api.workos.com/widgets", headers := [],
    context := some ctxSample, body := .ok "missing" }

/-- Sample 404 response with no stored context. -/
def rNoCtxSample : Response :=
  { status := 404, url := "https://api.workos.com/other",
    headers := [("X-Req", strBytes "1")], context := none, body := .ok "oops" }

/-- Sample 429 transport result with a Retry-After header. -/
def raw429 : RawResponse :=
  { status := 429, headers := [("Retry-After", strBytes "1.5")], body := .ok "" }

/-- Sample 429 transport result without a Retry-After header. -/
def raw429none : RawResponse :=
  { status := 429, headers := [("Content-Type", strBytes "application/json")], body := .ok "" }

/-- Sample transport error carrying a URL. -/
def transportErrSample : ReqwestError :=
  { msg := "connection reset by peer", url := some "https://api.workos.com/sso/token",
    is_timeout := false, sources := [] }

/-- Sample timeout-category transport error whose text matches no hint
pattern. -/
def timeoutErrSample : ReqwestError :=
  { msg := "error sending request", url := none, is_timeout := true, sources := [] }

end WorkOsRust

namespace WorkOsRust

/-- C3: a 401 response is classified unauthorized by the combined check with
a result independent of the body (so the body is never read), and any other
status passes the unauthorized check through unchanged. -/
theorem c3_unauthorized_check (E : Type) (response : Response) :
    (response.status = 401 →
      (handle_unauthorized_or_generic_error E response).2 = .error .Unauthorized ∧
      ∀ b, handle_unauthorized_or_generic_error E { response with body := b }
             = handle_unauthorized_or_generic_error E response) ∧
    (response.status ≠ 401 →
      handle_unauthorized_error E response = ([], .ok response)) := by
  obtain ⟨st, u, hs, ctx, bd⟩ := response
  constructor
  · intro h401
    replace h401 : st = 401 := h401
    subst h401
    constructor
    · cases ctx <;>
        simp [handle_unauthorized_or_generic_error, handle_unauthorized_error]
    · intro b
      cases ctx <;>
        simp [handle_unauthorized_or_generic_error, handle_unauthorized_error]
  · intro hne
    replace hne : st ≠ 401 := hne
    simp [handle_unauthorized_error, hne]

/-- Witness for C3: a concrete 401 response and a concrete 200 response. -/
theorem c3_witness :
    (handle_unauthorized_or_generic_error Unit r401Sample).2 = .error .Unauthorized ∧
    handle_unauthorized_or_generic_error Unit { r401Sample with body := .ok "other" }
        = handle_unauthorized_or_generic_error Unit r401Sample ∧
    handle_unauthorized_error Unit rOkSample = ([], .ok rOkSample) := by
  refine ⟨((c3_unauthorized_check Unit r401Sample).1 rfl).1,
    ((c3_unauthorized_check Unit r401Sample).1 rfl).2 (.ok "other"),
    (c3_unauthorized_check Unit rOkSample).2 (by decide)⟩

/-- C7: with no stored diagnostic context every classifier operation still
produces a result, falling back to method UNKNOWN, the response's own URL and
sanitized headers, and zero duration. -/
theorem c7_missing_context_fallback (E : Type) (response : Response)
    (h : response.context = none) :
    (response.status = 401 →
      handle_unauthorized_error E response =
        ([.unauthorized "UNKNOWN" response.url response.status
            (sanitize_headers response.headers) 0],
         .error .Unauthorized)) ∧
    (∀ b, response.body = .ok b →
      response_to_request_error E response =
        ([.errorWithBody "UNKNOWN" response.url response.status
            (sanitize_headers response.headers) (truncate_for_log b MAX_BODY_LOG_BYTES) 0],
         .RequestError (RequestError.new
           (format_error_message "UNKNOWN" response.url response.status
             (truncate_for_log b MAX_BODY_LOG_BYTES))))) ∧
    (∀ e, response.body = .error e →
      response_to_request_error E response =
        ([.errorBodyFailed "UNKNOWN" response.url response.status
            (sanitize_headers response.headers) e.msg 0],
         .RequestError (RequestError.with_source
           ("UNKNOWN" ++ " " ++ response.url ++ " returned " ++ statusDisplay response.status
             ++ " but the response body could not be read: " ++ e.msg) e))) ∧
    (∀ status body,
      build_request_error_from_body E none response.url (sanitize_headers response.headers)
          status body =
        ([.errorWithBody "UNKNOWN" response.url status (sanitize_headers response.headers) body 0],
         .RequestError (RequestError.new
           (format_error_message "UNKNOWN" response.url status body)))) := by
  obtain ⟨st, u, hs, ctx, bd⟩ := response
  replace h : ctx = none := h
  subst h
  refine ⟨?_, ?_, ?_, ?_⟩
  · intro h401
    replace h401 : st = 401 := h401
    subst h401
    simp [handle_unauthorized_error]
  · intro b hb
    replace hb : bd = .ok b := hb
    subst hb
    simp [response_to_request_error, build_request_error_from_body]
  · intro e he
    replace he : bd = .error e := he
    subst he
    simp [response_to_request_error]
  · intro status body
    simp [build_request_error_from_body]

/-- Witness for C7: the context-free 404 sample with a readable body. -/
theorem c7_witness :
    response_to_request_error Unit rNoCtxSample =
      ([.errorWithBody "UNKNOWN" rNoCtxSample.url rNoCtxSample.status
          (sanitize_headers rNoCtxSample.headers)
          (truncate_for_log "oops" MAX_BODY_LOG_BYTES) 0],
       .RequestError (RequestError.new
         (format_error_message "UNKNOWN" rNoCtxSample.url rNoCtxSample.status
           (truncate_for_log "oops" MAX_BODY_LOG_BYTES)))) :=
  (c7_missing_context_fallback Unit rNoCtxSample rfl).2.1 "oops" rfl

/-- C1: a non-2xx response with an attached context and a readable body is
classified as a request error whose message is exactly
method SP url SP "returned" SP status SP "with body:" SP truncated-body, or
the empty-body form when the truncated body is empty, with method and URL
drawn from the context. -/
theorem c1_generic_error_message (E : Type) (response : Response)
    (ctx : ResponseLogContext) (body : String) (hctx : response.context = some ctx)
    (hfail : isSuccessStatus response.status = false) (hbody : response.body = .ok body) :
    (handle_generic_error E response).2 =
      .error (.RequestError
        { message :=
            if truncate_for_log body MAX_BODY_LOG_BYTES = "" then
              ctx.method ++ " " ++ ctx.url ++ " returned " ++ statusDisplay response.status
                ++ " with empty body"
            else
              ctx.method ++ " " ++ ctx.url ++ " returned " ++ statusDisplay response.status
                ++ " with body: " ++ truncate_for_log body MAX_BODY_LOG_BYTES,
          source := none }) := by
  obtain ⟨st, u, hs, c0, bd⟩ := response
  replace hctx : c0 = some ctx := hctx
  replace hbody : bd = .ok body := hbody
  replace hfail : isSuccessStatus st = false := hfail
  subst hctx hbody
  simp only [handle_generic_error, hfail, Bool.false_eq_true, if_false,
    response_to_request_error, build_request_error_from_body, RequestError.new,
    format_error_message]
  by_cases hemp : truncate_for_log body MAX_BODY_LOG_BYTES = ""
  · simp [hemp, show ("" : String).isEmpty = true from rfl]
  · have : (truncate_for_log body MAX_BODY_LOG_BYTES).isEmpty = false := by
      rw [Bool.eq_false_iff]
      intro hc
      exact hemp ((String.isEmpty_iff _).mp hc)
    simp [hemp, this]

/-- Witness for C1: the 404 sample yields the exact formatted message. -/
theorem c1_witness :
    (handle_generic_error Unit r404Sample).2 =
      .error (.RequestError
        { message := "GET https://api.workos.com/widgets returned 404 Not Found with body: missing",
          source := none }) := by
  rw [c1_generic_error_message Unit r404Sample ctxSample "missing" rfl (by decide) rfl]
  decide

end WorkOsRust

namespace WorkOsRust

theorem visible_toNat_ofNat {b : Nat} (h : visibleAscii b = true) :
    (Char.ofNat b).toNat = b := by
  have hb : (32 ≤ b ∧ b < 127) ∨ b = 9 := of_decide_eq_true h
  have hlt : b < 127 := by rcases hb with h1 | h1 <;> omega
  have hv : b.isValidChar := Or.inl (by omega)
  simp only [Char.ofNat, hv, dite_true, Char.ofNatAux, Char.toNat]
  rfl

theorem truncLoop_utf8_bound (limit : Nat) :
    ∀ (cs : List Char) (k : Nat), k ≤ limit →
      k + ((truncLoop limit cs k).map Char.utf8Size).sum ≤ limit := by
  intro cs
  induction cs with
  | nil => intro k hk; simpa [truncLoop] using hk
  | cons c rest ih =>
    intro k hk
    by_cases h : k + c.utf8Size > limit
    · simp [truncLoop, h]; omega
    · have h2 : k + c.utf8Size ≤ limit := by omega
      have := ih (k + c.utf8Size) h2
      simp only [truncLoop, if_neg h, List.map_cons, List.sum_cons]
      omega

theorem truncLoop_prefix (limit : Nat) :
    ∀ (cs : List Char) (k : Nat), truncLoop limit cs k <+: cs := by
  intro cs
  induction cs with
  | nil => intro k; simp [truncLoop]
  | cons c rest ih =>
    intro k
    by_cases h : k + c.utf8Size > limit
    · simp [truncLoop, h]
    · obtain ⟨t, ht⟩ := ih (k + c.utf8Size)
      refine ⟨t, ?_⟩
      simp only [truncLoop, if_neg h, List.cons_append, ht]

/-- C5: for texts within the 8192-byte budget `truncate_for_log` is the
identity; for longer texts the result stays within budget plus the ellipsis
bytes, ends with the ellipsis, and the part before the ellipsis is a
whole-character prefix of the input. -/
theorem c5_truncate_for_log_spec (text : String) :
    (utf8Len text ≤ MAX_BODY_LOG_BYTES →
      truncate_for_log text MAX_BODY_LOG_BYTES = text) ∧
    (MAX_BODY_LOG_BYTES < utf8Len text →
      utf8Len (truncate_for_log text MAX_BODY_LOG_BYTES)
          ≤ MAX_BODY_LOG_BYTES + Char.utf8Size ellipsisChar ∧
      (truncate_for_log text MAX_BODY_LOG_BYTES).data.getLast? = some ellipsisChar ∧
      (truncate_for_log text MAX_BODY_LOG_BYTES).data.dropLast <+: text.data) := by
  constructor
  · intro h
    simp [truncate_for_log, h]
  · intro h
    have hnot : ¬ utf8Len text ≤ MAX_BODY_LOG_BYTES := by omega
    simp only [truncate_for_log, if_neg hnot]
    refine ⟨?_, ?_, ?_⟩
    · have hb := truncLoop_utf8_bound MAX_BODY_LOG_BYTES text.data 0 (Nat.zero_le _)
      simp only [utf8Len, List.map_append, List.sum_append, List.map_cons, List.map_nil,
        List.sum_cons, List.sum_nil]
      omega
    · exact List.getLast?_concat _
    · rw [List.dropLast_concat]
      exact truncLoop_prefix MAX_BODY_LOG_BYTES text.data 0

theorem utf8Len_longSample : utf8Len longSample = 8193 := by
  have hdata : longSample.data = List.replicate 8193 'a' := rfl
  rw [utf8Len, hdata, List.map_replicate, List.sum_replicate]
  norm_num [show Char.utf8Size 'a' = 1 from rfl]

/-- Witness for C5: both branches exercised on concrete texts. -/
theorem c5_witness :
    truncate_for_log "abc" MAX_BODY_LOG_BYTES = "abc" ∧
    (utf8Len (truncate_for_log longSample MAX_BODY_LOG_BYTES)
        ≤ MAX_BODY_LOG_BYTES + Char.utf8Size ellipsisChar ∧
      (truncate_for_log longSample MAX_BODY_LOG_BYTES).data.getLast? = some ellipsisChar ∧
      (truncate_for_log longSample MAX_BODY_LOG_BYTES).data.dropLast <+: longSample.data) := by
  constructor
  · exact (c5_truncate_for_log_spec "abc").1 (by decide)
  · exact (c5_truncate_for_log_spec longSample).2
      (by rw [utf8Len_longSample]; norm_num [MAX_BODY_LOG_BYTES])

theorem sanitize_headers_getElem (headers : HeaderMap) (i : Nat) (hi : i < headers.length) :
    ∃ hj : i < (sanitize_headers headers).length,
      (sanitize_headers headers).get ⟨i, hj⟩ =
        ((headers.get ⟨i, hi⟩).1,
          if eqIgnoreAsciiCase (headers.get ⟨i, hi⟩).1 "authorization" = true then "<redacted>"
          else
            match headerValueToStr (headers.get ⟨i, hi⟩).2 with
            | some val => val
            | none => "<non-utf8-value>") := by
  have hj : i < (sanitize_headers headers).length := by
    simpa [sanitize_headers] using hi
  refine ⟨hj, ?_⟩
  simp only [sanitize_headers, List.get_eq_getElem, List.getElem_map]

/-- C6: the sanitizer keeps names and order, redacts authorization values
(case-insensitively), replaces undisplayable values with the placeholder,
and keeps every other value verbatim. -/
theorem c6_sanitize_headers_spec (headers : HeaderMap) :
    ((sanitize_headers headers).map Prod.fst = headers.map Prod.fst) ∧
    (∀ i (hi : i < headers.length),
      ∃ hj : i < (sanitize_headers headers).length,
        ((sanitize_headers headers).get ⟨i, hj⟩).1 = (headers.get ⟨i, hi⟩).1 ∧
        (eqIgnoreAsciiCase (headers.get ⟨i, hi⟩).1 "authorization" = true →
          ((sanitize_headers headers).get ⟨i, hj⟩).2 = "<redacted>") ∧
        (eqIgnoreAsciiCase (headers.get ⟨i, hi⟩).1 "authorization" = false →
          ∀ s, headerValueToStr (headers.get ⟨i, hi⟩).2 = some s →
            ((sanitize_headers headers).get ⟨i, hj⟩).2 = s) ∧
        (eqIgnoreAsciiCase (headers.get ⟨i, hi⟩).1 "authorization" = false →
          headerValueToStr (headers.get ⟨i, hi⟩).2 = none →
            ((sanitize_headers headers).get ⟨i, hj⟩).2 = "<non-utf8-value>")) := by
  constructor
  · simp [sanitize_headers, List.map_map, Function.comp]
  · intro i hi
    obtain ⟨hj, heq⟩ := sanitize_headers_getElem headers i hi
    refine ⟨hj, ?_, ?_, ?_, ?_⟩
    · rw [heq]
    · intro hauth
      simp only [List.get_eq_getElem] at hauth
      rw [heq]
      simp [hauth]
    · intro hauth s hsome
      simp only [List.get_eq_getElem] at hauth hsome
      rw [heq]
      simp [hauth, hsome]
    · intro hauth hnone
      simp only [List.get_eq_getElem] at hauth hnone
      rw [heq]
      simp [hauth, hnone]

/-- Witness for C6: concrete collection with all three value classes. -/
theorem c6_witness :
    ((sanitize_headers hdrsSample).map Prod.fst = hdrsSample.map Prod.fst) ∧
    (∃ hj : 0 < (sanitize_headers hdrsSample).length,
      ((sanitize_headers hdrsSample).get ⟨0, hj⟩).2 = "<redacted>") ∧
    (∃ hj : 1 < (sanitize_headers hdrsSample).length,
      ((sanitize_headers hdrsSample).get ⟨1, hj⟩).2 = "application/json") ∧
    (∃ hj : 2 < (sanitize_headers hdrsSample).length,
      ((sanitize_headers hdrsSample).get ⟨2, hj⟩).2 = "<non-utf8-value>") := by
  refine ⟨(c6_sanitize_headers_spec hdrsSample).1, ?_, ?_, ?_⟩
  · obtain ⟨hj, -, hred, -, -⟩ := (c6_sanitize_headers_spec hdrsSample).2 0 (by decide)
    exact ⟨hj, hred (by decide)⟩
  · obtain ⟨hj, -, -, hkeep, -⟩ := (c6_sanitize_headers_spec hdrsSample).2 1 (by decide)
    exact ⟨hj, hkeep (by decide) "application/json" (by decide)⟩
  · obtain ⟨hj, -, -, -, hbad⟩ := (c6_sanitize_headers_spec hdrsSample).2 2 (by decide)
    exact ⟨hj, hbad (by decide) (by decide)⟩

/-- C10: an authorization header whose value is undisplayable is still
rendered as the redaction token, never as the non-text placeholder. -/
theorem c10_authorization_redacted (headers : HeaderMap) (i : Nat) (hi : i < headers.length)
    (hauth : eqIgnoreAsciiCase (headers.get ⟨i, hi⟩).1 "authorization" = true)
    (hbad : headerValueToStr (headers.get ⟨i, hi⟩).2 = none) :
    ∃ hj : i < (sanitize_headers headers).length,
      ((sanitize_headers headers).get ⟨i, hj⟩).2 = "<redacted>" ∧
      ((sanitize_headers headers).get ⟨i, hj⟩).2 ≠ "<non-utf8-value>" := by
  obtain ⟨hj, heq⟩ := sanitize_headers_getElem headers i hi
  simp only [List.get_eq_getElem] at hauth
  refine ⟨hj, ?_, ?_⟩
  · rw [heq]
    simp [hauth]
  · rw [heq]
    simp [hauth]

theorem headerValueToStr_strBytes {s : String}
    (h : s.data.all (fun c => visibleAscii c.toNat) = true) :
    headerValueToStr (strBytes s) = some s := by
  have hall : (strBytes s).all visibleAscii = true := by
    simpa [strBytes, List.all_map, Function.comp] using h
  simp only [headerValueToStr, hall, if_true]
  congr 1
  have hmap : s.data.map (Char.ofNat ∘ Char.toNat) = s.data :=
    (List.map_congr_left (fun c _ => Char.ofNat_toNat c)).trans (List.map_id s.data)
  calc String.mk ((strBytes s).map Char.ofNat)
      = String.mk (s.data.map (Char.ofNat ∘ Char.toNat)) := by
        rw [strBytes, List.map_map]
    _ = String.mk s.data := by rw [hmap]
    _ = s := rfl

theorem decoded_all_visible {v : List Nat} {s : String}
    (h : headerValueToStr v = some s) :
    s.data.all (fun c => visibleAscii c.toNat) = true := by
  unfold headerValueToStr at h
  by_cases hv : v.all visibleAscii
  · simp only [hv, if_true, Option.some.injEq] at h
    subst h
    rw [List.all_eq_true]
    intro c hc
    obtain ⟨b, hb, rfl⟩ := List.mem_map.mp hc
    have hvb : visibleAscii b = true := (List.all_eq_true.mp hv) b hb
    rw [visible_toNat_ofNat hvb]
    exact hvb
  · simp [hv] at h

theorem redacted_all_visible :
    ("<redacted>" : String).data.all (fun c => visibleAscii c.toNat) = true := by
  decide

theorem placeholder_all_visible :
    ("<non-utf8-value>" : String).data.all (fun c => visibleAscii c.toNat) = true := by
  decide

/-- C9: sanitizing is idempotent — rebuilding a header collection from
sanitizer output and sanitizing again changes nothing. -/
theorem c9_sanitize_idempotent (headers : HeaderMap) :
    sanitize_headers (rebuildHeaders (sanitize_headers headers)) = sanitize_headers headers := by
  induction headers with
  | nil => rfl
  | cons hd tl ih =>
    simp only [sanitize_headers, rebuildHeaders, List.map_cons] at ih ⊢
    congr 1
    by_cases hauth : eqIgnoreAsciiCase hd.1 "authorization" = true
    · simp [hauth]
    · cases hdec : headerValueToStr hd.2 with
      | some s =>
        simp [hauth, hdec, headerValueToStr_strBytes (decoded_all_visible hdec)]
      | none =>
        simp [hauth, hdec, headerValueToStr_strBytes placeholder_all_visible]

/-- Witness for C10: a lowercase authorization header carrying raw bytes. -/
theorem c10_witness :
    ∃ hj : 0 < (sanitize_headers [("authorization", [200, 10])]).length,
      ((sanitize_headers [("authorization", [200, 10])]).get ⟨0, hj⟩).2 = "<redacted>" ∧
      ((sanitize_headers [("authorization", [200, 10])]).get ⟨0, hj⟩).2 ≠ "<non-utf8-value>" :=
  c10_authorization_redacted [("authorization", [200, 10])] 0 (by decide) (by decide) (by decide)

/-- C2: `send` yields the rate-limited error exactly on status 429, carrying
the `Retry-After` value parsed as a float — present and parsable gives some,
absent or unparsable gives none. -/
theorem c2_rate_limited (E : Type) (method url : String) (duration : Nat) (raw : RawResponse) :
    ((∃ ra, (send E method url duration (.ok raw)).2 = .error (.RateLimited ra)) ↔
        raw.status = 429) ∧
    (raw.status = 429 →
      (send E method url duration (.ok raw)).2
        = .error (.RateLimited (retryAfterOf raw.headers))) ∧
    (headerGet raw.headers "retry-after" = none → retryAfterOf raw.headers = none) ∧
    (∀ v s q, headerGet raw.headers "retry-after" = some v → headerValueToStr v = some s →
      parse_f32 s = some q → retryAfterOf raw.headers = some q) ∧
    (∀ v, headerGet raw.headers "retry-after" = some v →
      (headerValueToStr v).bind parse_f32 = none → retryAfterOf raw.headers = none) := by
  obtain ⟨st, hs, bd⟩ := raw
  refine ⟨⟨?_, ?_⟩, ?_, ?_, ?_, ?_⟩
  · rintro ⟨ra, hra⟩
    by_cases h429 : st = 429
    · exact h429
    · simp [send, h429] at hra
  · intro h429
    replace h429 : st = 429 := h429
    subst h429
    exact ⟨retryAfterOf hs, by simp [send]⟩
  · intro h429
    replace h429 : st = 429 := h429
    subst h429
    simp [send]
  · intro hnone
    simp [retryAfterOf, hnone]
  · intro v s q hv hsv hq
    simp [retryAfterOf, hv, hsv, hq]
  · intro v hv hbind
    simp [retryAfterOf, hv, hbind]

/-- Witness for C2: a 429 with Retry-After 1.5 yields some 1.5; a 429
without the header yields none. -/
theorem c2_witness :
    (send Unit "GET" "https://api.workos.com/limited" 3 (.ok raw429)).2
        = .error (.RateLimited (some (3 / 2 : ℚ))) ∧
    (send Unit "GET" "https://api.workos.com/limited" 3 (.ok raw429none)).2
        = .error (.RateLimited none) := by
  have h1 := (c2_rate_limited Unit "GET" "https://api.workos.com/limited" 3 raw429).2.1 rfl
  have h2 := (c2_rate_limited Unit "GET" "https://api.workos.com/limited" 3 raw429none).2.1 rfl
  constructor
  · rw [h1]
    have hra : retryAfterOf raw429.headers = some (mkRat 3 2) := by decide
    have hmk : (mkRat 3 2 : ℚ) = 3 / 2 := by norm_num [Rat.mkRat_eq_div]
    rw [hra, hmk]
  · rw [h2]
    have hra : retryAfterOf raw429none.headers = none := by decide
    rw [hra]

set_option maxRecDepth 8192 in
/-- C4 counterexample: a transport failure whose typed error message carries
the URL and the cause but not the request method, refuting the claim that
the message combines method, URL, and cause. -/
theorem c4_counterexample :
    (send Unit "GET" "https://api.workos.com/sso/token" 3 (.error transportErrSample)).2
        = .error (.RequestError
            { message := "request to https://api.workos.com/sso/token failed: connection reset by peer",
              source := some transportErrSample }) ∧
    ¬ ("GET".data <:+:
        "request to https://api.workos.com/sso/token failed: connection reset by peer".data) := by
  constructor
  · rfl
  · decide

/-- C4 amended: every transport-level failure of `send` returns a request
error wrapping the original cause as its source, whose message combines the
URL (when the cause carries one) and the cause text: "request to (url)
failed: (cause)", or "request failed: (cause)" when no URL is available. -/
theorem c4_transport_error (E : Type) (method url : String) (duration : Nat)
    (err : ReqwestError) :
    (send E method url duration (.error err)).2
        = .error (.RequestError (RequestError.from_reqwest err)) ∧
    (RequestError.from_reqwest err).source = some err ∧
    (err.msg.data <:+: (RequestError.from_reqwest err).message.data) ∧
    (∀ u, err.url = some u →
      (RequestError.from_reqwest err).message = "request to " ++ u ++ " failed: " ++ err.msg ∧
      u.data <:+: (RequestError.from_reqwest err).message.data) ∧
    (err.url = none →
      (RequestError.from_reqwest err).message = "request failed: " ++ err.msg) := by
  refine ⟨by simp [send], rfl, ?_, ?_, ?_⟩
  · unfold RequestError.from_reqwest RequestError.with_source
    cases hu : err.url with
    | some u =>
      refine ⟨("request to " ++ u ++ " failed: ").data, [], ?_⟩
      simp [String.data_append, List.append_assoc]
    | none =>
      refine ⟨("request failed: " : String).data, [], ?_⟩
      simp [String.data_append]
  · intro u hu
    unfold RequestError.from_reqwest RequestError.with_source
    rw [hu]
    refine ⟨rfl, "request to ".data, (" failed: " ++ err.msg).data, ?_⟩
    simp [String.data_append, List.append_assoc]
  · intro hu
    unfold RequestError.from_reqwest RequestError.with_source
    rw [hu]

/-- Witness for C4 amended: the sample transport error with a URL. -/
theorem c4_witness :
    (send Unit "GET" "https://api.workos.com/sso/token" 3 (.error transportErrSample)).2
        = .error (.RequestError (RequestError.from_reqwest transportErrSample)) ∧
    (RequestError.from_reqwest transportErrSample).message
        = "request to " ++ "https://api.workos.com/sso/token" ++ " failed: "
            ++ transportErrSample.msg := by
  refine ⟨(c4_transport_error Unit "GET" "https://api.workos.com/sso/token" 3
      transportErrSample).1, ?_⟩
  exact ((c4_transport_error Unit "GET" "https://api.workos.com/sso/token" 3
      transportErrSample).2.2.2.1 "https://api.workos.com/sso/token" rfl).1

/-- C8 counterexample: a transport error flagged as a timeout whose combined
text matches no trigger substring — the code still returns the timeout hint,
while matching purely by substrings (as the claim states) returns no hint. -/
theorem c8_counterexample :
    derive_error_hint timeoutErrSample [] = some timeoutHint ∧
    substring_only_hint timeoutErrSample [] = none := by
  constructor
  · decide
  · decide

/-- C8 amended: the code derives at most one hint, by priority-ordered
case-insensitive substring matching over the combined text, except that the
timeout hint is additionally triggered by the error's timeout category flag;
with the flag clear, the result is exactly the pure substring matching. -/
theorem c8_hint_priority (err : ReqwestError) (chain : List String) :
    derive_error_hint err chain =
      (if err.is_timeout then some timeoutHint
       else matchHint hintPatterns (combinedText err chain)) := by
  by_cases ht : err.is_timeout
  · simp [derive_error_hint, ht]
  · simp only [derive_error_hint, ht, Bool.false_or, matchHint, hintPatterns,
      List.any_cons, List.any_nil, Bool.or_false, Bool.or_assoc, Bool.false_eq_true, if_false]

end WorkOsRust
